import Mathlib

/-!
Shallow embedding of the token lifecycle subsystem of `go-note`
(`internal/auth/jwt.go`, `internal/auth/middleware.go`,
`internal/auth/token_manager.go`), together with the behaviour of the
`golang-jwt/jwt/v5` library calls those files make.

Modelling conventions:
* time is `Int` Unix seconds (`jwt.NewNumericDate` truncates to second
  precision before serialisation);
* a signed compact token is modelled structurally as its header algorithm,
  its decoded JSON payload and its signature; HMAC is idealised as an
  injective MAC, i.e. a signature value records the algorithm, key and
  signing input, and verification compares for equality (the standard
  symbolic model of a collision-free MAC);
* `os.Getenv "SUPABASE_JWT_SECRET"` is modelled by passing the current
  value of that variable as an explicit argument (`""` when unset, as in Go);
* Go functions that consult the wall clock receive `now : Int` explicitly.
-/

namespace GoNote

/-- Signing algorithms a compact token header can declare.  `HS256` is what
`GenerateTokenPair` uses; the others stand for the non-HMAC families the
verifier must reject, plus the remaining HMAC variants. -/
inductive Alg where
  | HS256
  | HS384
  | HS512
  | RS256
  | ES256
  | noneAlg
deriving DecidableEq, Repr

/-- Whether the algorithm belongs to the HMAC family: this is the
`token.Method.(*jwt.SigningMethodHMAC)` type assertion in both keyfuncs. -/
def Alg.isHMAC : Alg → Bool
  | .HS256 => true
  | .HS384 => true
  | .HS512 => true
  | _ => false

/-- The `alg` string the token header carries (`token.Header["alg"]`). -/
def Alg.headerName : Alg → String
  | .HS256 => "HS256"
  | .HS384 => "HS384"
  | .HS512 => "HS512"
  | .RS256 => "RS256"
  | .ES256 => "ES256"
  | .noneAlg => "none"

/-- Decoded JSON payload of a compact token.  A field is `none` when the
corresponding key is absent from the JSON object.  The keys are the union of
what `UserClaims` and `RefreshTokenClaims` (with their embedded
`jwt.RegisteredClaims`) serialise. -/
structure Payload where
  sub : Option String
  email : Option String
  role : Option String
  user_id : Option String
  token_type : Option String
  iss : Option String
  exp : Option Int
  iat : Option Int
  nbf : Option Int
deriving DecidableEq, Repr

/-- Idealised HMAC signature: records the algorithm, the key and the signing
input.  Verification (`jwt.SigningMethodHMAC.Verify`) recomputes the MAC and
compares, which here is equality of `Sig` values. -/
structure Sig where
  alg : Alg
  key : String
  signedPayload : Payload
deriving DecidableEq, Repr

/-- Computing the HMAC signature over a token's signing input with `key`
(`jwt.Token.SignedString` for an HMAC method). -/
def hmacSign (alg : Alg) (key : String) (p : Payload) : Sig :=
  ⟨alg, key, p⟩

/-- A compact serialised token: header algorithm, decoded payload, signature. -/
structure Token where
  alg : Alg
  payload : Payload
  sig : Sig
deriving DecidableEq, Repr

/-- Embedded `jwt.RegisteredClaims` (the fields this repository ever sets or
reads; `aud` and `jti` are never used and always empty). -/
structure RegisteredClaims where
  Issuer : String
  Subject : String
  ExpiresAt : Option Int
  NotBefore : Option Int
  IssuedAt : Option Int
deriving DecidableEq, Repr

/-- The `UserClaims` struct of `middleware.go`. -/
structure UserClaims where
  Sub : String
  Email : String
  Role : String
  Registered : RegisteredClaims
deriving DecidableEq, Repr

/-- The `RefreshTokenClaims` struct of `token_manager.go`. -/
structure RefreshTokenClaims where
  UserID : String
  TokenType : String
  Registered : RegisteredClaims
deriving DecidableEq, Repr

/-- JSON serialisation of `UserClaims` (Go `encoding/json`).  `UserClaims.Sub`
and the embedded `RegisteredClaims.Subject` both carry the JSON key `"sub"`;
Go resolves the conflict in favour of the shallower field, so only `Sub` is
marshalled and `Subject` is dropped.  The registered fields carry
`omitempty`. -/
def encodeUserClaims (c : UserClaims) : Payload :=
  { sub := some c.Sub
    email := some c.Email
    role := some c.Role
    user_id := none
    token_type := none
    iss := if c.Registered.Issuer = "" then none else some c.Registered.Issuer
    exp := c.Registered.ExpiresAt
    iat := c.Registered.IssuedAt
    nbf := c.Registered.NotBefore }

/-- JSON deserialisation into `UserClaims`.  The `"sub"` key is consumed by
the dominant `Sub` field, so `Registered.Subject` stays at its zero value. -/
def decodeUserClaims (p : Payload) : UserClaims :=
  { Sub := p.sub.getD ""
    Email := p.email.getD ""
    Role := p.role.getD ""
    Registered :=
      { Issuer := p.iss.getD ""
        Subject := ""
        ExpiresAt := p.exp
        NotBefore := p.nbf
        IssuedAt := p.iat } }

/-- JSON serialisation of `RefreshTokenClaims`.  No key conflicts here:
`user_id` and `token_type` are distinct from the registered keys. -/
def encodeRefreshClaims (c : RefreshTokenClaims) : Payload :=
  { sub := if c.Registered.Subject = "" then none else some c.Registered.Subject
    email := none
    role := none
    user_id := some c.UserID
    token_type := some c.TokenType
    iss := if c.Registered.Issuer = "" then none else some c.Registered.Issuer
    exp := c.Registered.ExpiresAt
    iat := c.Registered.IssuedAt
    nbf := c.Registered.NotBefore }

/-- JSON deserialisation into `RefreshTokenClaims`. -/
def decodeRefreshClaims (p : Payload) : RefreshTokenClaims :=
  { UserID := p.user_id.getD ""
    TokenType := p.token_type.getD ""
    Registered :=
      { Issuer := p.iss.getD ""
        Subject := p.sub.getD ""
        ExpiresAt := p.exp
        NotBefore := p.nbf
        IssuedAt := p.iat } }

/-- Individual claim-validation failures produced by the `jwt/v5` validator. -/
inductive ValErr where
  | expired
  | notYetValid
deriving DecidableEq, Repr

/-- Error message of each claim-validation failure (`jwt/v5` `errors.go`). -/
def ValErr.msg : ValErr → String
  | .expired => "token is expired"
  | .notYetValid => "token is not valid yet"

/-- The default `jwt/v5` validator run by `ParseWithClaims`: checks `exp`
(valid iff `now` is strictly before it) and `nbf` (valid iff `now` is not
before it), both optional; `iat` is not verified by default.  Failures are
collected in this order and joined. -/
def validateTimes (now : Int) (exp nbf : Option Int) : List ValErr :=
  (match exp with
   | none => []
   | some e => if now < e then [] else [ValErr.expired]) ++
  (match nbf with
   | none => []
   | some n => if now < n then [ValErr.notYetValid] else [])

/-- Errors `jwt.ParseWithClaims` can return in this repository's usage
(structurally well-formed tokens; the malformed-string case is handled by the
wire layer, which this structural model does not reach). -/
inductive JwtError where
  | malformed
  | unverifiable (keyfuncMsg : String)
  | signatureInvalid
  | invalidClaims (errs : List ValErr)
deriving DecidableEq, Repr

/-- Caller-visible message of a `jwt/v5` error, as produced by the library's
`newError` wrapping (`"%w: %s"` / `"%w: %w"` chains) and `errors.Join`. -/
def JwtError.errString : JwtError → String
  | .malformed => "token is malformed"
  | .unverifiable m => "token is unverifiable: error while executing keyfunc: " ++ m
  | .signatureInvalid => "token signature is invalid: signature is invalid"
  | .invalidClaims errs =>
      "token has invalid claims: " ++ String.intercalate "\n" (errs.map ValErr.msg)

/-- Shared behaviour of `jwt.ParseWithClaims` with the keyfunc both call
sites use: reject a non-HMAC signing method from the keyfunc (wrapped by the
parser as an unverifiable-token error), then verify the HMAC signature with
`secret`, then run the default claim validator.  Returns the decoded payload
on success.  `v5` order: keyfunc, then signature, then claims. -/
def parseWithClaimsCore (secret : String) (now : Int) (t : Token) :
    Except JwtError Payload :=
  if t.alg.isHMAC = false then
    .error (.unverifiable ("unexpected signing method: " ++ t.alg.headerName))
  else if t.sig ≠ hmacSign t.alg secret t.payload then
    .error .signatureInvalid
  else
    match validateTimes now t.payload.exp t.payload.nbf with
    | [] => .ok t.payload
    | e :: es => .error (.invalidClaims (e :: es))

/-- The `TokenManager` struct: the secret captured from the environment at
construction, and the two lifetimes (modelled in seconds: Go stores
`time.Duration`s of 15 minutes and 7 days). -/
structure TokenManager where
  jwtSecret : String
  accessExpiry : Int
  refreshExpiry : Int
deriving DecidableEq, Repr

/-- The `NewTokenManager` constructor: reads `SUPABASE_JWT_SECRET` (passed
here as `env`, `""` when unset) and fixes the 15-minute / 7-day lifetimes. -/
def NewTokenManager (env : String) : TokenManager :=
  { jwtSecret := env
    accessExpiry := 15 * 60
    refreshExpiry := 7 * 24 * 60 * 60 }

/-- The `TokenPair` struct (tokens kept structural rather than as strings). -/
structure TokenPair where
  AccessToken : Token
  RefreshToken : Token
  ExpiresIn : Int
  TokenType : String
deriving DecidableEq, Repr

/-- The `GenerateTokenPair` method.  `now := time.Now()` is taken once;
both tokens are built from it, signed with `HS256` and the manager's secret.
`ExpiresIn` is `int64(tm.accessExpiry.Seconds())`; HMAC signing never fails,
so the Go error path is absent. -/
def GenerateTokenPair (tm : TokenManager) (now : Int)
    (userID email role : String) : TokenPair :=
  let accessClaims : UserClaims :=
    { Sub := userID
      Email := email
      Role := role
      Registered :=
        { Issuer := "go-note-backend"
          Subject := userID
          ExpiresAt := some (now + tm.accessExpiry)
          NotBefore := some now
          IssuedAt := some now } }
  let accessPayload := encodeUserClaims accessClaims
  let accessToken : Token :=
    ⟨Alg.HS256, accessPayload, hmacSign Alg.HS256 tm.jwtSecret accessPayload⟩
  let refreshClaims : RefreshTokenClaims :=
    { UserID := userID
      TokenType := "refresh"
      Registered :=
        { Issuer := "go-note-backend"
          Subject := userID
          ExpiresAt := some (now + tm.refreshExpiry)
          NotBefore := some now
          IssuedAt := some now } }
  let refreshPayload := encodeRefreshClaims refreshClaims
  let refreshToken : Token :=
    ⟨Alg.HS256, refreshPayload, hmacSign Alg.HS256 tm.jwtSecret refreshPayload⟩
  { AccessToken := accessToken
    RefreshToken := refreshToken
    ExpiresIn := tm.accessExpiry
    TokenType := "bearer" }

/-- Errors of `ValidateRefreshToken`: a `jwt.ParseWithClaims` error passed
through, or one of the two `fmt.Errorf` messages of `token_manager.go`.
(`invalidRefreshToken` is the final fallthrough, unreachable when parsing
succeeded, kept for structural fidelity.) -/
inductive RefreshError where
  | jwtErr (e : JwtError)
  | invalidTokenType
  | invalidRefreshToken
deriving DecidableEq, Repr

/-- The `ValidateRefreshToken` method: `jwt.ParseWithClaims` into
`RefreshTokenClaims` with the HMAC-pinning keyfunc and the manager's secret,
then the extra `claims.TokenType != "refresh"` role check. -/
def ValidateRefreshToken (tm : TokenManager) (now : Int) (t : Token) :
    Except RefreshError RefreshTokenClaims :=
  match parseWithClaimsCore tm.jwtSecret now t with
  | .error e => .error (.jwtErr e)
  | .ok p =>
      let claims := decodeRefreshClaims p
      if claims.TokenType ≠ "refresh" then .error .invalidTokenType
      else .ok claims

/-- The unexported `validateJWT` of `middleware.go`: re-reads
`SUPABASE_JWT_SECRET` on each call (the `env` argument), then
`jwt.ParseWithClaims` into `UserClaims` with the same HMAC-pinning keyfunc.
The trailing `ok && token.Valid` type assertion always succeeds when parsing
returned no error, so the `jwt.ErrInvalidKey` fallthrough is unreachable. -/
def validateJWT (env : String) (now : Int) (t : Token) :
    Except JwtError UserClaims :=
  (parseWithClaimsCore env now t).map decodeUserClaims

/-- Go `strings.HasPrefix`, at character-list granularity. -/
def strHasPre (s p : String) : Bool :=
  decide (s.toList.take p.toList.length = p.toList)

/-- Go `strings.TrimPrefix`: drops `p` from the front of `s` when present,
otherwise returns `s` unchanged. -/
def strTrimPre (s p : String) : String :=
  if strHasPre s p then ⟨s.toList.drop p.toList.length⟩ else s

/-- Observable outcome of running a gin middleware handler on a request:
either it aborted with an HTTP status and JSON error body, or it called
`c.Next()` with the listed context keys set. -/
inductive MwOutcome where
  | abort (status : Nat) (errorBody : String)
  | next (ctx : List (String × String))
deriving DecidableEq, Repr

/-- The handler returned by `AuthMiddleware`, on a request whose
`Authorization` header has value `authHeader` (`""` when the header is
absent: Go's `c.GetHeader` cannot distinguish the two).  `validate` is the
string-level `validateJWT`, abstracted because the wire decoding of a token
string is library code; its result on the extracted token string is what the
middleware branches on. -/
def AuthMiddleware (validate : String → Except JwtError UserClaims)
    (authHeader : String) : MwOutcome :=
  if authHeader = "" then
    .abort 401 "Authorization header required"
  else
    let tokenString := strTrimPre authHeader "Bearer "
    if tokenString = authHeader then
      .abort 401 "Invalid authorization header format"
    else
      match validate tokenString with
      | .error e => .abort 401 ("Invalid token: " ++ e.errString)
      | .ok claims =>
          .next [("user_id", claims.Sub), ("user_email", claims.Email),
                 ("user_role", claims.Role)]

/-- The handler returned by `OptionalAuthMiddleware`: sets the identity keys
only when a well-formed bearer header carries a token that validates, and
always calls `c.Next()`. -/
def OptionalAuthMiddleware (validate : String → Except JwtError UserClaims)
    (authHeader : String) : MwOutcome :=
  let ctx :=
    if authHeader ≠ "" then
      let tokenString := strTrimPre authHeader "Bearer "
      if tokenString ≠ authHeader then
        match validate tokenString with
        | .ok claims =>
            [("user_id", claims.Sub), ("user_email", claims.Email),
             ("user_role", claims.Role)]
        | .error _ => []
      else []
    else []
  .next ctx

/-- The `JWTClaims` struct of `jwt.go`.  The two `map[string]interface{}`
metadata fields are never inspected by this code; they are modelled as
association lists of strings. -/
structure JWTClaims where
  Sub : String
  Email : String
  Role : String
  UserMetadata : List (String × String)
  AppMetadata : List (String × String)
  Iss : String
  Aud : String
  Exp : Int
  Iat : Int
deriving DecidableEq, Repr

/-- Errors of `ParseJWTClaims` (`jwt.go`): "invalid JWT format",
"failed to decode JWT payload", "failed to parse JWT claims". -/
inductive ParseErr where
  | formatError
  | decodeError
  | parseError
deriving DecidableEq, Repr

/-- Go `strings.Split` specialised to the one-character separator `"."`:
splits around every occurrence of `.`, yielding one more part than there are
separators (so the empty string yields `[""]`). -/
def splitDot : List Char → List (List Char)
  | [] => [[]]
  | c :: cs =>
      let r := splitDot cs
      if c = '.' then [] :: r
      else
        match r with
        | [] => [[c]]
        | h :: t => (c :: h) :: t

/-- Go `strings.Split(s, ".")` on strings. -/
def goSplitDot (s : String) : List String :=
  (splitDot s.toList).map (fun cs => ⟨cs⟩)

/-- The `ParseJWTClaims` function of `jwt.go`: split on `.`, require exactly
three segments, base64-RawURL-decode the middle segment, JSON-unmarshal it
into `JWTClaims`.  The two library calls are abstracted as parameters:
`dec` is `base64.RawURLEncoding.DecodeString` (`none` on invalid input) and
`um` is `json.Unmarshal` into `JWTClaims` (`none` on parse failure).  No
signature check of any kind is performed. -/
def ParseJWTClaims (dec : String → Option (List Nat))
    (um : List Nat → Option JWTClaims) (tokenString : String) :
    Except ParseErr JWTClaims :=
  let parts := goSplitDot tokenString
  if parts.length ≠ 3 then
    .error .formatError
  else
    match dec (parts.getD 1 "") with
    | none => .error .decodeError
    | some payload =>
        match um payload with
        | none => .error .parseError
        | some claims => .ok claims

/-- The `IsTokenExpired` function of `jwt.go`: a placeholder that always
reports "not expired". -/
def IsTokenExpired (claims : JWTClaims) : Bool :=
  false

/-! ### Helper lemmas -/

/-- Parsing succeeds on an HMAC token whose signature matches the secret and
whose time claims validate. -/
theorem parseWithClaimsCore_ok (secret : String) (now : Int) (t : Token)
    (halg : t.alg.isHMAC = true)
    (hsig : t.sig = hmacSign t.alg secret t.payload)
    (htime : validateTimes now t.payload.exp t.payload.nbf = []) :
    parseWithClaimsCore secret now t = .ok t.payload := by
  simp [parseWithClaimsCore, halg, hsig, htime]

/-- Parsing rejects a non-HMAC token with the keyfunc error. -/
theorem parseWithClaimsCore_nonHMAC (secret : String) (now : Int) (t : Token)
    (halg : t.alg.isHMAC = false) :
    parseWithClaimsCore secret now t =
      .error (.unverifiable ("unexpected signing method: " ++ t.alg.headerName)) := by
  simp [parseWithClaimsCore, halg]

/-- Parsing rejects an HMAC token whose signature does not match. -/
theorem parseWithClaimsCore_badSig (secret : String) (now : Int) (t : Token)
    (halg : t.alg.isHMAC = true)
    (hsig : t.sig ≠ hmacSign t.alg secret t.payload) :
    parseWithClaimsCore secret now t = .error .signatureInvalid := by
  simp [parseWithClaimsCore, halg, hsig]

/-- Parsing reports the collected claim errors when time validation fails. -/
theorem parseWithClaimsCore_invalid (secret : String) (now : Int) (t : Token)
    (e : ValErr) (es : List ValErr)
    (halg : t.alg.isHMAC = true)
    (hsig : t.sig = hmacSign t.alg secret t.payload)
    (htime : validateTimes now t.payload.exp t.payload.nbf = e :: es) :
    parseWithClaimsCore secret now t = .error (.invalidClaims (e :: es)) := by
  simp [parseWithClaimsCore, halg, hsig, htime]

/-- A token of positive lifetime validates at its own issuance instant. -/
theorem validateTimes_fresh (now a : Int) (h : 0 < a) :
    validateTimes now (some (now + a)) (some now) = [] := by
  simp only [validateTimes]
  rw [if_pos (by omega), if_neg (by omega)]
  rfl

/-- Round trip of `UserClaims` through JSON: everything survives except the
embedded `Subject`, whose `"sub"` key is shadowed by the dominant `Sub`. -/
theorem decodeUserClaims_encode (c : UserClaims) :
    decodeUserClaims (encodeUserClaims c) =
      ⟨c.Sub, c.Email, c.Role,
        ⟨c.Registered.Issuer, "", c.Registered.ExpiresAt,
         c.Registered.NotBefore, c.Registered.IssuedAt⟩⟩ := by
  by_cases h : c.Registered.Issuer = "" <;>
    simp [encodeUserClaims, decodeUserClaims, h]

/-- Round trip of `RefreshTokenClaims` through JSON is exact. -/
theorem decodeRefreshClaims_encode (c : RefreshTokenClaims) :
    decodeRefreshClaims (encodeRefreshClaims c) = c := by
  obtain ⟨uid, tt, iss, subj, e, n, i⟩ := c
  by_cases h1 : subj = "" <;> by_cases h2 : iss = "" <;>
    simp [encodeRefreshClaims, decodeRefreshClaims, h1, h2]

/-- Validating an `HS256` token signed with the very secret the verifier
uses, with passing time claims, succeeds and returns the decoded claims. -/
theorem validateJWT_signed_user (env : String) (now : Int) (c : UserClaims)
    (htime : validateTimes now (encodeUserClaims c).exp (encodeUserClaims c).nbf = []) :
    validateJWT env now
        ⟨Alg.HS256, encodeUserClaims c, hmacSign Alg.HS256 env (encodeUserClaims c)⟩
      = .ok (decodeUserClaims (encodeUserClaims c)) := by
  have h1 := parseWithClaimsCore_ok env now
    ⟨Alg.HS256, encodeUserClaims c, hmacSign Alg.HS256 env (encodeUserClaims c)⟩
    rfl rfl htime
  simp only [validateJWT, h1, Except.map]

/-- Validating a refresh-shaped `HS256` token signed with the manager's
secret, with passing time claims, reduces to the role check on the decoded
`TokenType`. -/
theorem validateRefreshToken_signed (tm : TokenManager) (now : Int)
    (c : RefreshTokenClaims)
    (htime : validateTimes now (encodeRefreshClaims c).exp (encodeRefreshClaims c).nbf = []) :
    ValidateRefreshToken tm now
        ⟨Alg.HS256, encodeRefreshClaims c,
         hmacSign Alg.HS256 tm.jwtSecret (encodeRefreshClaims c)⟩
      = if c.TokenType ≠ "refresh" then .error .invalidTokenType else .ok c := by
  have h1 := parseWithClaimsCore_ok tm.jwtSecret now
    ⟨Alg.HS256, encodeRefreshClaims c,
     hmacSign Alg.HS256 tm.jwtSecret (encodeRefreshClaims c)⟩
    rfl rfl htime
  simp only [ValidateRefreshToken, h1]
  rw [decodeRefreshClaims_encode]

/-! ### Claims -/

/-- C4: every successful `GenerateTokenPair(userID, email, role)` call has a
single issuance instant `now` with: access expiry = now + exactly 15 minutes
(900 s), refresh expiry = now + exactly 7 days (604800 s), issued-at =
not-before = now on both tokens, `ExpiresIn` = 900 (the access lifetime in
seconds) and `TokenType` = "bearer". -/
theorem c4_lifetimes (env userID email role : String) (now : Int) :
    (GenerateTokenPair (NewTokenManager env) now userID email role).AccessToken.payload.exp
        = some (now + 900) ∧
    (GenerateTokenPair (NewTokenManager env) now userID email role).AccessToken.payload.iat
        = some now ∧
    (GenerateTokenPair (NewTokenManager env) now userID email role).AccessToken.payload.nbf
        = some now ∧
    (GenerateTokenPair (NewTokenManager env) now userID email role).RefreshToken.payload.exp
        = some (now + 604800) ∧
    (GenerateTokenPair (NewTokenManager env) now userID email role).RefreshToken.payload.iat
        = some now ∧
    (GenerateTokenPair (NewTokenManager env) now userID email role).RefreshToken.payload.nbf
        = some now ∧
    (GenerateTokenPair (NewTokenManager env) now userID email role).ExpiresIn = 900 ∧
    (GenerateTokenPair (NewTokenManager env) now userID email role).TokenType = "bearer" :=
  ⟨rfl, rfl, rfl, rfl, rfl, rfl, rfl, rfl⟩

/-- C9: `IsTokenExpired` returns `false` for every claims value, including
claims whose `Exp` is strictly below the current time: it never reports a
token as expired. -/
theorem c9_isTokenExpired (c : JWTClaims) (now : Int) :
    IsTokenExpired c = false ∧ (c.Exp < now → IsTokenExpired c = false) :=
  ⟨rfl, fun _ => rfl⟩

/-- Witness for C9 at a concrete claims value whose `Exp` lies in the past. -/
theorem c9_isTokenExpired_witness :
    IsTokenExpired ⟨"u1", "a@b.com", "authenticated", [], [], "iss", "aud", 0, 0⟩
      = false :=
  (c9_isTokenExpired ⟨"u1", "a@b.com", "authenticated", [], [], "iss", "aud", 0, 0⟩ 5).2
    (by decide)

/-- C1: signing a claim set with the process secret and verifying with the
same secret round-trips: a pair issued by `GenerateTokenPair("u1", "a@b.com",
"authenticated")` has a refresh token that `ValidateRefreshToken` accepts
with `UserID = "u1"`, and an access token that `validateJWT` accepts with
`Sub = "u1"`, `Email = "a@b.com"`, `Role = "authenticated"` (stated for
arbitrary user, email, role, secret and issuance time). -/
theorem c1_round_trip (secret userID email role : String) (now : Int) :
    validateJWT secret now
        (GenerateTokenPair (NewTokenManager secret) now userID email role).AccessToken
      = .ok ⟨userID, email, role,
          ⟨"go-note-backend", "", some (now + 900), some now, some now⟩⟩ ∧
    ValidateRefreshToken (NewTokenManager secret) now
        (GenerateTokenPair (NewTokenManager secret) now userID email role).RefreshToken
      = .ok ⟨userID, "refresh",
          ⟨"go-note-backend", userID, some (now + 604800), some now, some now⟩⟩ := by
  constructor
  · exact validateJWT_signed_user secret now
      ⟨userID, email, role,
        ⟨"go-note-backend", userID, some (now + 900), some now, some now⟩⟩
      (validateTimes_fresh now 900 (by norm_num))
  · exact validateRefreshToken_signed (NewTokenManager secret) now
      ⟨userID, "refresh",
        ⟨"go-note-backend", userID, some (now + 604800), some now, some now⟩⟩
      (validateTimes_fresh now 604800 (by norm_num))

/-- C2: any token whose header declares a signing method outside the HMAC
family is rejected by both `validateJWT` and `ValidateRefreshToken` with the
keyfunc's algorithm-mismatch error ("unexpected signing method"), wrapped as
an unverifiable-token error — the keyfunc runs before any signature
comparison, so the result holds for every signature value, in particular for
a token whose signature is the correct MAC under the current secret. -/
theorem c2_nonHMAC_rejected (env : String) (now : Int) (t : Token)
    (halg : t.alg.isHMAC = false) :
    validateJWT env now t =
      .error (.unverifiable ("unexpected signing method: " ++ t.alg.headerName)) ∧
    ValidateRefreshToken (NewTokenManager env) now t =
      .error (.jwtErr (.unverifiable
        ("unexpected signing method: " ++ t.alg.headerName))) := by
  have h1 := parseWithClaimsCore_nonHMAC env now t halg
  have h2 := parseWithClaimsCore_nonHMAC (NewTokenManager env).jwtSecret now t halg
  constructor
  · simp only [validateJWT, h1, Except.map]
  · simp only [ValidateRefreshToken, h2]

/-- Witness for C2: an `RS256` token whose signature is the correct MAC over
its payload under the current secret is still rejected by both verifiers. -/
theorem c2_nonHMAC_rejected_witness :
    validateJWT "s" 0
        ⟨Alg.RS256, ⟨none, none, none, none, none, none, none, none, none⟩,
         hmacSign Alg.RS256 "s" ⟨none, none, none, none, none, none, none, none, none⟩⟩
      = .error (.unverifiable ("unexpected signing method: " ++ Alg.headerName Alg.RS256)) ∧
    ValidateRefreshToken (NewTokenManager "s") 0
        ⟨Alg.RS256, ⟨none, none, none, none, none, none, none, none, none⟩,
         hmacSign Alg.RS256 "s" ⟨none, none, none, none, none, none, none, none, none⟩⟩
      = .error (.jwtErr (.unverifiable
          ("unexpected signing method: " ++ Alg.headerName Alg.RS256))) :=
  c2_nonHMAC_rejected "s" 0
    ⟨Alg.RS256, ⟨none, none, none, none, none, none, none, none, none⟩,
     hmacSign Alg.RS256 "s" ⟨none, none, none, none, none, none, none, none, none⟩⟩
    rfl

/-- C3: for a syntactically valid, correctly signed, unexpired HMAC token,
`ValidateRefreshToken` returns the wrong-token-type error exactly when the
decoded token-type marker differs from "refresh" (an access token's payload
has no marker, so it decodes to `""`), and returns the decoded claims exactly
when the marker equals "refresh". -/
theorem c3_refresh_type_enforced (tm : TokenManager) (now : Int) (t : Token)
    (halg : t.alg.isHMAC = true)
    (hsig : t.sig = hmacSign t.alg tm.jwtSecret t.payload)
    (htime : validateTimes now t.payload.exp t.payload.nbf = []) :
    (ValidateRefreshToken tm now t = .error .invalidTokenType ↔
      (decodeRefreshClaims t.payload).TokenType ≠ "refresh") ∧
    (ValidateRefreshToken tm now t = .ok (decodeRefreshClaims t.payload) ↔
      (decodeRefreshClaims t.payload).TokenType = "refresh") := by
  have h1 := parseWithClaimsCore_ok tm.jwtSecret now t halg hsig htime
  by_cases h : (decodeRefreshClaims t.payload).TokenType = "refresh" <;>
    simp only [ValidateRefreshToken, h1] <;> simp [h]

/-- Witness for C3: the access token of a freshly generated pair, presented
to `ValidateRefreshToken` at its own issuance instant, is rejected with the
wrong-token-type error. -/
theorem c3_refresh_type_enforced_witness :
    ValidateRefreshToken (NewTokenManager "s") 0
        (GenerateTokenPair (NewTokenManager "s") 0 "u1" "a@b.com" "authenticated").AccessToken
      = .error .invalidTokenType :=
  (c3_refresh_type_enforced (NewTokenManager "s") 0
      (GenerateTokenPair (NewTokenManager "s") 0 "u1" "a@b.com" "authenticated").AccessToken
      rfl rfl (validateTimes_fresh 0 900 (by norm_num))).1.mpr (by decide)

/-- C10: `validateJWT` reads the `SUPABASE_JWT_SECRET` environment variable
on each call (the `env` argument of this model) and never checks it for
emptiness: with the variable unset or empty (`env = ""`), any token whose
signature is a correct HMAC under the empty key — and whose time claims
pass — is accepted and its claims returned; no rejection path exists for a
missing secret. -/
theorem c10_empty_secret_accepts (now : Int) (t : Token)
    (halg : t.alg.isHMAC = true)
    (hsig : t.sig = hmacSign t.alg "" t.payload)
    (htime : validateTimes now t.payload.exp t.payload.nbf = []) :
    validateJWT "" now t = .ok (decodeUserClaims t.payload) := by
  have h1 := parseWithClaimsCore_ok "" now t halg hsig htime
  simp only [validateJWT, h1, Except.map]

/-- Witness for C10: a concrete token HMAC-signed with the empty key is
accepted by `validateJWT` when the environment variable is empty. -/
theorem c10_empty_secret_accepts_witness :
    validateJWT "" 0
        ⟨Alg.HS256,
         ⟨some "u1", some "a@b.com", some "authenticated", none, none,
          some "go-note-backend", some 900, some 0, some 0⟩,
         hmacSign Alg.HS256 ""
          ⟨some "u1", some "a@b.com", some "authenticated", none, none,
           some "go-note-backend", some 900, some 0, some 0⟩⟩
      = .ok (decodeUserClaims
          ⟨some "u1", some "a@b.com", some "authenticated", none, none,
           some "go-note-backend", some 900, some 0, some 0⟩) :=
  c10_empty_secret_accepts 0
    ⟨Alg.HS256,
     ⟨some "u1", some "a@b.com", some "authenticated", none, none,
      some "go-note-backend", some 900, some 0, some 0⟩,
     hmacSign Alg.HS256 ""
      ⟨some "u1", some "a@b.com", some "authenticated", none, none,
       some "go-note-backend", some 900, some 0, some 0⟩⟩
    rfl rfl (by decide)

/-- When the header lacks the bearer scheme, `strings.TrimPrefix` returns it
unchanged. -/
theorem strTrimPre_of_not_pre (s p : String) (h : strHasPre s p = false) :
    strTrimPre s p = s := by
  unfold strTrimPre
  rw [h]
  rfl

/-- A header that carries the `"Bearer "` scheme is strictly shortened by
`strings.TrimPrefix`, so the extracted token differs from the header. -/
theorem strTrimPre_bearer_ne (s : String) (h : strHasPre s "Bearer " = true) :
    strTrimPre s "Bearer " ≠ s := by
  have htake : s.toList.take 7 = "Bearer ".toList := by
    have := of_decide_eq_true h
    exact this
  have hlen : 7 ≤ s.toList.length := by
    have h1 : (s.toList.take 7).length = 7 := by rw [htake]; rfl
    rw [List.length_take] at h1
    omega
  unfold strTrimPre
  rw [h]
  intro contra
  have hdata : s.toList.drop 7 = s.toList := congrArg String.data contra
  have h2 : (s.toList.drop 7).length = s.toList.length := by rw [hdata]
  rw [List.length_drop] at h2
  omega

/-- A header that carries the `"Bearer "` scheme is nonempty. -/
theorem strHasPre_bearer_ne_empty (s : String) (h : strHasPre s "Bearer " = true) :
    s ≠ "" := by
  intro contra
  subst contra
  exact absurd (of_decide_eq_true h) (by decide)

/-- C5: `AuthMiddleware` aborts with 401 and never reaches downstream
processing when the `Authorization` header is absent, when it lacks the
`"Bearer "` scheme (a distinct malformed-header error), or when the extracted
token fails verification; only when verification succeeds does it set the
`user_id`/`user_email`/`user_role` context and continue downstream. -/
theorem c5_authMiddleware (validate : String → Except JwtError UserClaims)
    (h : String) :
    (h = "" → AuthMiddleware validate h =
      .abort 401 "Authorization header required") ∧
    (h ≠ "" → strHasPre h "Bearer " = false →
      AuthMiddleware validate h =
        .abort 401 "Invalid authorization header format") ∧
    (∀ e, strHasPre h "Bearer " = true →
      validate (strTrimPre h "Bearer ") = .error e →
      AuthMiddleware validate h = .abort 401 ("Invalid token: " ++ e.errString)) ∧
    (∀ c, strHasPre h "Bearer " = true →
      validate (strTrimPre h "Bearer ") = .ok c →
      AuthMiddleware validate h =
        .next [("user_id", c.Sub), ("user_email", c.Email), ("user_role", c.Role)]) := by
  refine ⟨?_, ?_, ?_, ?_⟩
  · intro h0
    simp [AuthMiddleware, h0]
  · intro h0 hp
    unfold AuthMiddleware
    rw [if_neg h0, if_pos (strTrimPre_of_not_pre h "Bearer " hp)]
  · intro e hp hv
    unfold AuthMiddleware
    rw [if_neg (strHasPre_bearer_ne_empty h hp),
        if_neg (strTrimPre_bearer_ne h hp), hv]
  · intro c hp hv
    unfold AuthMiddleware
    rw [if_neg (strHasPre_bearer_ne_empty h hp),
        if_neg (strTrimPre_bearer_ne h hp), hv]

/-- Witness for C5 at a concrete verifier and the four header shapes:
missing header, malformed header, failing token, succeeding token. -/
theorem c5_authMiddleware_witness :
    AuthMiddleware
        (fun s => if s = "good"
          then .ok ⟨"u1", "a@b.com", "authenticated",
                    ⟨"go-note-backend", "", some 900, some 0, some 0⟩⟩
          else .error .malformed) ""
      = .abort 401 "Authorization header required" ∧
    AuthMiddleware
        (fun s => if s = "good"
          then .ok ⟨"u1", "a@b.com", "authenticated",
                    ⟨"go-note-backend", "", some 900, some 0, some 0⟩⟩
          else .error .malformed) "Token abc"
      = .abort 401 "Invalid authorization header format" ∧
    AuthMiddleware
        (fun s => if s = "good"
          then .ok ⟨"u1", "a@b.com", "authenticated",
                    ⟨"go-note-backend", "", some 900, some 0, some 0⟩⟩
          else .error .malformed) "Bearer bad"
      = .abort 401 ("Invalid token: " ++ JwtError.errString .malformed) ∧
    AuthMiddleware
        (fun s => if s = "good"
          then .ok ⟨"u1", "a@b.com", "authenticated",
                    ⟨"go-note-backend", "", some 900, some 0, some 0⟩⟩
          else .error .malformed) "Bearer good"
      = .next [("user_id", "u1"), ("user_email", "a@b.com"),
               ("user_role", "authenticated")] :=
  ⟨(c5_authMiddleware _ "").1 rfl,
   (c5_authMiddleware _ "Token abc").2.1 (by decide) (by rfl),
   (c5_authMiddleware _ "Bearer bad").2.2.1 .malformed (by rfl) (by rfl),
   (c5_authMiddleware _ "Bearer good").2.2.2 _ (by rfl) (by rfl)⟩

/-- C6: `OptionalAuthMiddleware` always invokes downstream processing and
never aborts: with a missing header, a header without the bearer scheme, or a
token that fails verification, downstream runs with no identity context; on
successful verification downstream runs with the identity context set. -/
theorem c6_optionalAuthMiddleware (validate : String → Except JwtError UserClaims)
    (h : String) :
    (∃ ctx, OptionalAuthMiddleware validate h = .next ctx) ∧
    (h = "" → OptionalAuthMiddleware validate h = .next []) ∧
    (strHasPre h "Bearer " = false → OptionalAuthMiddleware validate h = .next []) ∧
    (∀ e, strHasPre h "Bearer " = true →
      validate (strTrimPre h "Bearer ") = .error e →
      OptionalAuthMiddleware validate h = .next []) ∧
    (∀ c, strHasPre h "Bearer " = true →
      validate (strTrimPre h "Bearer ") = .ok c →
      OptionalAuthMiddleware validate h =
        .next [("user_id", c.Sub), ("user_email", c.Email), ("user_role", c.Role)]) := by
  refine ⟨⟨_, rfl⟩, ?_, ?_, ?_, ?_⟩
  · intro h0
    simp [OptionalAuthMiddleware, h0]
  · intro hp
    unfold OptionalAuthMiddleware
    by_cases h0 : h = ""
    · rw [if_neg (by simp [h0])]
    · rw [if_pos h0, if_neg (by simp [strTrimPre_of_not_pre h "Bearer " hp])]
  · intro e hp hv
    unfold OptionalAuthMiddleware
    rw [if_pos (strHasPre_bearer_ne_empty h hp),
        if_pos (strTrimPre_bearer_ne h hp), hv]
  · intro c hp hv
    unfold OptionalAuthMiddleware
    rw [if_pos (strHasPre_bearer_ne_empty h hp),
        if_pos (strTrimPre_bearer_ne h hp), hv]

/-- Witness for C6 at a concrete verifier and the four header shapes. -/
theorem c6_optionalAuthMiddleware_witness :
    OptionalAuthMiddleware
        (fun s => if s = "good"
          then .ok ⟨"u1", "a@b.com", "authenticated",
                    ⟨"go-note-backend", "", some 900, some 0, some 0⟩⟩
          else .error .malformed) ""
      = .next [] ∧
    OptionalAuthMiddleware
        (fun s => if s = "good"
          then .ok ⟨"u1", "a@b.com", "authenticated",
                    ⟨"go-note-backend", "", some 900, some 0, some 0⟩⟩
          else .error .malformed) "Token abc"
      = .next [] ∧
    OptionalAuthMiddleware
        (fun s => if s = "good"
          then .ok ⟨"u1", "a@b.com", "authenticated",
                    ⟨"go-note-backend", "", some 900, some 0, some 0⟩⟩
          else .error .malformed) "Bearer bad"
      = .next [] ∧
    OptionalAuthMiddleware
        (fun s => if s = "good"
          then .ok ⟨"u1", "a@b.com", "authenticated",
                    ⟨"go-note-backend", "", some 900, some 0, some 0⟩⟩
          else .error .malformed) "Bearer good"
      = .next [("user_id", "u1"), ("user_email", "a@b.com"),
               ("user_role", "authenticated")] :=
  ⟨(c6_optionalAuthMiddleware _ "").2.1 rfl,
   (c6_optionalAuthMiddleware _ "Token abc").2.2.1 (by rfl),
   (c6_optionalAuthMiddleware _ "Bearer bad").2.2.2.1 .malformed (by rfl) (by rfl),
   (c6_optionalAuthMiddleware _ "Bearer good").2.2.2.2 _ (by rfl) (by rfl)⟩

/-- C7 counterexample: an expired token and a forged-signature token do NOT
produce the same caller-visible response.  Both are rejected with 401, but
`AuthMiddleware` appends `err.Error()` to the body, so the expired token
yields "Invalid token: token has invalid claims: token is expired" while the
forged one yields "Invalid token: token signature is invalid: signature is
invalid" — the output reveals which internal check failed. -/
theorem c7_counterexample :
    validateJWT "s" 100
        ⟨Alg.HS256,
         ⟨some "u1", some "a@b.com", some "authenticated", none, none,
          some "go-note-backend", some 10, some 0, some 0⟩,
         hmacSign Alg.HS256 "s"
          ⟨some "u1", some "a@b.com", some "authenticated", none, none,
           some "go-note-backend", some 10, some 0, some 0⟩⟩
      = .error (.invalidClaims [.expired]) ∧
    validateJWT "s" 100
        ⟨Alg.HS256,
         ⟨some "u1", some "a@b.com", some "authenticated", none, none,
          some "go-note-backend", some 1000, some 0, some 0⟩,
         hmacSign Alg.HS256 "attacker"
          ⟨some "u1", some "a@b.com", some "authenticated", none, none,
           some "go-note-backend", some 1000, some 0, some 0⟩⟩
      = .error .signatureInvalid ∧
    AuthMiddleware
        (fun _ => validateJWT "s" 100
          ⟨Alg.HS256,
           ⟨some "u1", some "a@b.com", some "authenticated", none, none,
            some "go-note-backend", some 10, some 0, some 0⟩,
           hmacSign Alg.HS256 "s"
            ⟨some "u1", some "a@b.com", some "authenticated", none, none,
             some "go-note-backend", some 10, some 0, some 0⟩⟩) "Bearer t"
      = .abort 401 "Invalid token: token has invalid claims: token is expired" ∧
    AuthMiddleware
        (fun _ => validateJWT "s" 100
          ⟨Alg.HS256,
           ⟨some "u1", some "a@b.com", some "authenticated", none, none,
            some "go-note-backend", some 1000, some 0, some 0⟩,
           hmacSign Alg.HS256 "attacker"
            ⟨some "u1", some "a@b.com", some "authenticated", none, none,
             some "go-note-backend", some 1000, some 0, some 0⟩⟩) "Bearer t"
      = .abort 401 "Invalid token: token signature is invalid: signature is invalid" ∧
    ("Invalid token: token has invalid claims: token is expired" : String)
      ≠ "Invalid token: token signature is invalid: signature is invalid" := by
  refine ⟨rfl, rfl, rfl, rfl, by decide⟩

/-- C7 amended: the caller-visible response to any verification failure has
the same HTTP status 401 and a body carrying the generic "Invalid token: "
marker, but the body appends the library's error message, which differs
between an expired token and one with a forged signature — so the response
status is uniform while the body reveals which internal check failed. -/
theorem c7_amended_status_uniform (validate : String → Except JwtError UserClaims)
    (h : String) (e : JwtError)
    (hp : strHasPre h "Bearer " = true)
    (hv : validate (strTrimPre h "Bearer ") = .error e) :
    AuthMiddleware validate h = .abort 401 ("Invalid token: " ++ e.errString) ∧
    JwtError.errString (.invalidClaims [.expired])
      ≠ JwtError.errString .signatureInvalid := by
  constructor
  · unfold AuthMiddleware
    rw [if_neg (strHasPre_bearer_ne_empty h hp),
        if_neg (strTrimPre_bearer_ne h hp), hv]
  · decide

/-- Witness for the amended C7 at a concrete failing verifier and header. -/
theorem c7_amended_status_uniform_witness :
    AuthMiddleware (fun _ => .error .signatureInvalid) "Bearer x"
      = .abort 401 ("Invalid token: " ++ JwtError.errString .signatureInvalid) ∧
    JwtError.errString (.invalidClaims [.expired])
      ≠ JwtError.errString .signatureInvalid :=
  c7_amended_status_uniform (fun _ => .error .signatureInvalid) "Bearer x"
    .signatureInvalid (by rfl) rfl

/-- Given exactly three dot-separated segments, `ParseJWTClaims` reduces to
decoding and unmarshalling the middle segment. -/
theorem parseJWTClaims_of_three (dec : String → Option (List Nat))
    (um : List Nat → Option JWTClaims) (s : String)
    (h3 : (goSplitDot s).length = 3) :
    ParseJWTClaims dec um s =
      (match dec ((goSplitDot s).getD 1 "") with
       | none => .error .decodeError
       | some payload =>
          match um payload with
          | none => .error .parseError
          | some claims => .ok claims) := by
  simp [ParseJWTClaims, h3]

/-- C8: `ParseJWTClaims` fails with the format error exactly when the input
does not split into three dot-delimited segments; with three segments it
fails with the decode error exactly when the middle segment does not
base64-decode, with the parse error exactly when the decoded payload does
not unmarshal, and otherwise returns the decoded claims; and its result
depends only on the middle segment (no signature check), stated for every
decoder `dec` and unmarshaller `um`. -/
theorem c8_parseJWTClaims (dec : String → Option (List Nat))
    (um : List Nat → Option JWTClaims) (s : String) :
    ((goSplitDot s).length ≠ 3 ↔ ParseJWTClaims dec um s = .error .formatError) ∧
    ((goSplitDot s).length = 3 →
      ((ParseJWTClaims dec um s = .error .decodeError) ↔
        dec ((goSplitDot s).getD 1 "") = none) ∧
      (∀ payload, dec ((goSplitDot s).getD 1 "") = some payload →
        ((ParseJWTClaims dec um s = .error .parseError) ↔ um payload = none) ∧
        (∀ claims, um payload = some claims →
          ParseJWTClaims dec um s = .ok claims))) ∧
    (∀ s2, (goSplitDot s).length = 3 → (goSplitDot s2).length = 3 →
      (goSplitDot s).getD 1 "" = (goSplitDot s2).getD 1 "" →
      ParseJWTClaims dec um s = ParseJWTClaims dec um s2) := by
  refine ⟨⟨fun hne => by simp [ParseJWTClaims, hne], fun he => ?_⟩, ?_, ?_⟩
  · intro h3
    rw [parseJWTClaims_of_three dec um s h3] at he
    rcases hdec : dec ((goSplitDot s).getD 1 "") with _ | payload
    · rw [hdec] at he
      simp at he
    · rw [hdec] at he
      rcases hum : um payload with _ | claims <;> simp [hum] at he
  · intro h3
    have hc := parseJWTClaims_of_three dec um s h3
    constructor
    · rw [hc]
      rcases hdec : dec ((goSplitDot s).getD 1 "") with _ | payload
      · simp [hdec]
      · simp only [hdec]
        rcases hum : um payload with _ | claims <;> simp [hum]
    · intro payload hdec
      rw [hc, hdec]
      constructor
      · rcases hum : um payload with _ | claims <;> simp [hum]
      · intro claims hum
        simp [hum]
  · intro s2 h3 h3' heq
    rw [parseJWTClaims_of_three dec um s h3,
        parseJWTClaims_of_three dec um s2 h3', heq]

/-- Witness for C8 at concrete decoder, unmarshaller and token strings: a
three-segment token parses to the decoded claims, and a dotless string is a
format error. -/
theorem c8_parseJWTClaims_witness :
    ParseJWTClaims
        (fun seg => if seg = "payloadB64" then some [1] else none)
        (fun l => if l = [1]
          then some ⟨"u1", "a@b.com", "authenticated", [], [], "iss", "aud", 100, 0⟩
          else none)
        "header.payloadB64.sig"
      = .ok ⟨"u1", "a@b.com", "authenticated", [], [], "iss", "aud", 100, 0⟩ ∧
    ParseJWTClaims
        (fun seg => if seg = "payloadB64" then some [1] else none)
        (fun l => if l = [1]
          then some ⟨"u1", "a@b.com", "authenticated", [], [], "iss", "aud", 100, 0⟩
          else none)
        "nodots"
      = .error .formatError :=
  ⟨(((c8_parseJWTClaims _ _ "header.payloadB64.sig").2.1 (by decide)).2
      [1] (by decide)).2
    ⟨"u1", "a@b.com", "authenticated", [], [], "iss", "aud", 100, 0⟩ (by decide),
   (c8_parseJWTClaims _ _ "nodots").1.mp (by decide)⟩

end GoNote
